import Mathlib

/-!
# gobgp `server/grpc_server.go`: the gRPC-to-actor bridge

A shallow embedding of the request envelope, the unary adapters, the streaming
adapter `handleMultipleResponses` and the client-streamed adapter `ModPath`.

The adapters are sequential Go code that talks to other goroutines only through
channels and through the gRPC stream object.  The embedding makes that
environment an explicit argument:

* what the actor delivers on an envelope's response channel is a `Feed`
  (the pointers it sends, in order, and whether it closes the channel);
* what `stream.Recv` yields is a list of `RecvResult`s;
* `stream.Send` and `stream.SendAndClose` are functions supplied by the caller.

Every run returns the list of channel and stream operations it performed, in
program order, together with how the call ended: it returned, it panicked, or
its goroutine is parked on a channel operation.  Logging is left out.
-/

namespace GrpcServer

/-! ## Operation tags (`const ( _ = iota; ... )`) -/

def REQ_GLOBAL_CONFIG : Nat := 1
def REQ_MOD_GLOBAL_CONFIG : Nat := 2
def REQ_NEIGHBOR : Nat := 3
def REQ_NEIGHBORS : Nat := 4
def REQ_ADJ_RIB_IN : Nat := 5
def REQ_ADJ_RIB_OUT : Nat := 6
def REQ_LOCAL_RIB : Nat := 7
def REQ_NEIGHBOR_SHUTDOWN : Nat := 8
def REQ_NEIGHBOR_RESET : Nat := 9
def REQ_NEIGHBOR_SOFT_RESET : Nat := 10
def REQ_NEIGHBOR_SOFT_RESET_IN : Nat := 11
def REQ_NEIGHBOR_SOFT_RESET_OUT : Nat := 12
def REQ_NEIGHBOR_ENABLE : Nat := 13
def REQ_NEIGHBOR_DISABLE : Nat := 14
def REQ_MOD_NEIGHBOR : Nat := 15
def REQ_GLOBAL_RIB : Nat := 16
def REQ_MONITOR_GLOBAL_BEST_CHANGED : Nat := 17
def REQ_MONITOR_NEIGHBOR_PEER_STATE : Nat := 18
def REQ_MRT_GLOBAL_RIB : Nat := 19
def REQ_MRT_LOCAL_RIB : Nat := 20
def REQ_RPKI : Nat := 21
def REQ_ROA : Nat := 22
def REQ_VRF : Nat := 23
def REQ_VRFS : Nat := 24
def REQ_VRF_MOD : Nat := 25
def REQ_MOD_PATH : Nat := 26
def REQ_DEFINED_SET : Nat := 27
def REQ_MOD_DEFINED_SET : Nat := 28
def REQ_STATEMENT : Nat := 29
def REQ_MOD_STATEMENT : Nat := 30
def REQ_POLICY : Nat := 31
def REQ_MOD_POLICY : Nat := 32
def REQ_POLICY_ASSIGNMENT : Nat := 33
def REQ_MOD_POLICY_ASSIGNMENT : Nat := 34

/-! ## Types of the `api` package used by the server -/

/-- Modelled from the spec: the enum `api.Resource` is declared in the `api`
package, outside `server/`.  The five selectors the server names are
constructors; `other` stands for every remaining value of the enum. -/
inductive Resource where
  | GLOBAL
  | LOCAL
  | ADJ_IN
  | ADJ_OUT
  | VRF
  | other (code : Nat)
  deriving DecidableEq, Repr

/-- Modelled from the spec: `api.Arguments`, declared in the `api` package;
the fields the server reads. -/
structure Arguments where
  Resource : Resource
  Rf : Nat
  Name : String
  deriving DecidableEq, Repr

/-- Modelled from the spec: `api.MrtArguments`, declared in the `api` package;
the fields the server reads. -/
structure MrtArguments where
  Resource : Resource
  Rf : Nat
  Interval : Nat
  NeighborAddress : String
  deriving DecidableEq, Repr

/-- Modelled from the spec: `api.ModPathArguments`, declared in the `api`
package: one mutation item with its target scope, its name and its paths
(kept as an uninterpreted value). -/
structure ModPathArguments where
  Resource : Resource
  Name : String
  Paths : Nat
  deriving DecidableEq, Repr

/-- Modelled from the spec: the enum `api.Error_ErrorCode` of the `api`
package; `SUCCESS` is the code of the terminal acknowledgment. -/
inductive ErrorCode where
  | SUCCESS
  | FAIL
  deriving DecidableEq, Repr

/-- Modelled from the spec: `api.Error`, declared in the `api` package. -/
structure ApiError where
  Code : ErrorCode
  Msg : String
  deriving DecidableEq, Repr

/-- A Go `error` value that is not nil.  `EOF` is `io.EOF`; the two
`unsupported...` constructors are the values built by `fmt.Errorf` in this
file; `other` is any error made elsewhere (actor, transport). -/
inductive GoError where
  | EOF
  | unsupportedResourceType (r : Resource)
  | unsupportedResource (r : Resource)
  | other (id : Nat)
  deriving DecidableEq, Repr

/-- A value of type `interface{}`: the nil interface, or a value together with
its dynamic type.  Message contents are uninterpreted. -/
inductive Payload where
  | absent
  | peer (v : Nat)
  | destination (v : Nat)
  | mrtMessage (v : Nat)
  | definedSet (v : Nat)
  | statement (v : Nat)
  | policy (v : Nat)
  | policyAssignment (v : Nat)
  | global (v : Nat)
  | arguments (a : Arguments)
  | modPathArguments (a : ModPathArguments)
  | uint64 (n : Nat)
  | other (typ : Nat) (v : Nat)
  deriving DecidableEq, Repr

/-! ## Envelope and response -/

/-- The struct `GrpcRequest`.  A channel field holds the capacity the channel
was made with; what is buffered in a channel at run time is part of the
environment, not of the struct. -/
structure GrpcRequest where
  RequestType : Nat
  Name : String
  RouteFamily : Nat
  ResponseCh : Nat
  EndCh : Nat
  Err : Option GoError
  Data : Payload
  deriving DecidableEq, Repr

def NewGrpcRequest (reqType : Nat) (name : String) (rf : Nat) (d : Payload) : GrpcRequest :=
  { RequestType := reqType
    RouteFamily := rf
    Name := name
    ResponseCh := 8
    EndCh := 1
    Err := none
    Data := d }

structure GrpcResponse where
  ResponseErr : Option GoError
  Data : Payload
  deriving DecidableEq, Repr

def GrpcResponse.Err (r : GrpcResponse) : Option GoError :=
  r.ResponseErr

/-! ## Environment -/

/-- What the actor puts on one envelope's response channel over the life of
the request: the `*GrpcResponse` pointers it sends, in order (`none` is a nil
pointer), and whether it closes the channel after them. -/
structure Feed where
  items : List (Option GrpcResponse)
  closed : Bool
  deriving DecidableEq, Repr

/-- The pair returned by one call of `stream.Recv`. -/
structure RecvResult where
  arg : Option ModPathArguments
  err : Option GoError
  deriving DecidableEq, Repr

/-- One operation of an adapter on a channel or on its gRPC stream. -/
inductive Event where
  | submit (req : GrpcRequest)
  | read (res : Option GrpcResponse)
  | call (res : GrpcResponse)
  | signal
  | recv (r : RecvResult)
  | sendAndClose (e : ApiError)
  deriving DecidableEq, Repr

/-- How a call ended.  `blockedOnRecv` and `blockedOnSend`: the goroutine is
parked on a channel receive or send that nothing in the environment
completes.  `blockedOnStream`: `stream.Recv` never returns. -/
inductive Outcome (α : Type) where
  | returned (v : α)
  | panicked
  | blockedOnRecv
  | blockedOnSend
  | blockedOnStream
  deriving DecidableEq, Repr

/-- The result of one call of a sink callback `f func(*GrpcResponse) error`:
it returns nil, returns an error, or panics. -/
inductive SinkResult where
  | ok
  | failed (err : GoError)
  | panicked
  deriving DecidableEq, Repr

/-- A send on a buffered channel of capacity `cap` holding `len` elements, with
no receiver waiting: the new length, or `none` when the sender has to park. -/
def chanSend (cap len : Nat) : Option Nat :=
  if len < cap then some (len + 1) else none

/-- A run of an adapter: how it ended and what it did, in program order. -/
structure Run (α : Type) where
  outcome : Outcome α
  trace : List Event
  deriving Repr

/-- A run of `handleMultipleResponses`: in addition the state of the sink and
the number of signals buffered in the end-signal channel when the run ends. -/
structure StreamRun (σ : Type) where
  outcome : Outcome (Option GoError)
  trace : List Event
  sink : σ
  endLen : Nat

/-- The envelopes a run submitted to the actor, in order. -/
def submits : List Event → List GrpcRequest
  | [] => []
  | .submit req :: es => req :: submits es
  | _ :: es => submits es

/-- The responses a run passed to the sink callback, in order. -/
def calls : List Event → List GrpcResponse
  | [] => []
  | .call res :: es => res :: calls es
  | _ :: es => calls es

/-- The values a run received from response channels, in order. -/
def reads : List Event → List (Option GrpcResponse)
  | [] => []
  | .read res :: es => res :: reads es
  | _ :: es => reads es

/-- The number of signals a run wrote to an end-signal channel. -/
def signals : List Event → Nat
  | [] => 0
  | .signal :: es => signals es + 1
  | _ :: es => signals es

/-- The results of `stream.Recv` a run obtained, in order. -/
def recvs : List Event → List RecvResult
  | [] => []
  | .recv r :: es => r :: recvs es
  | _ :: es => recvs es

/-- The terminal acknowledgments a run sent, in order. -/
def acks : List Event → List ApiError
  | [] => []
  | .sendAndClose e :: es => e :: acks es
  | _ :: es => acks es

/-! ## The streaming adapter -/

/-- The statement `req.EndCh <- struct{}{}; return err`. -/
def signalAndReturn {σ : Type} (req : GrpcRequest) (err : GoError) (pre : List Event)
    (endLen : Nat) (s : σ) : StreamRun σ :=
  match chanSend req.EndCh endLen with
  | some n => ⟨.returned (some err), pre ++ [.signal], s, n⟩
  | none => ⟨.blockedOnSend, pre, s, endLen⟩

/-- The function `handleMultipleResponses(req, f)`, run against the values the
actor delivers on `req.ResponseCh` (`items`, then closure when `closed`), with
`endLen` signals already buffered in `req.EndCh` and the sink in state `s`. -/
def handleMultipleResponses {σ : Type} (req : GrpcRequest)
    (f : σ → GrpcResponse → σ × SinkResult) :
    List (Option GrpcResponse) → Bool → Nat → σ → StreamRun σ
  | [], closed, endLen, s =>
    ⟨if closed then .returned none else .blockedOnRecv, [], s, endLen⟩
  | none :: _, _, endLen, s =>
    ⟨.panicked, [.read none], s, endLen⟩
  | some res :: rest, closed, endLen, s =>
    match res.Err with
    | some err => signalAndReturn req err [.read (some res)] endLen s
    | none =>
      match f s res with
      | (s', .failed err) =>
        signalAndReturn req err [.read (some res), .call res] endLen s'
      | (s', .panicked) => ⟨.panicked, [.read (some res), .call res], s', endLen⟩
      | (s', .ok) =>
        let r := handleMultipleResponses req f rest closed endLen s'
        { r with trace := .read (some res) :: .call res :: r.trace }

/-! ## Type assertions `d.(*api.T)` -/

def assertPeer : Payload → Option Nat
  | .peer v => some v
  | _ => none

def assertDestination : Payload → Option Nat
  | .destination v => some v
  | _ => none

def assertMrtMessage : Payload → Option Nat
  | .mrtMessage v => some v
  | _ => none

def assertDefinedSet : Payload → Option Nat
  | .definedSet v => some v
  | _ => none

def assertStatement : Payload → Option Nat
  | .statement v => some v
  | _ => none

def assertPolicy : Payload → Option Nat
  | .policy v => some v
  | _ => none

def assertPolicyAssignment : Payload → Option Nat
  | .policyAssignment v => some v
  | _ => none

def assertGlobal : Payload → Option Nat
  | .global v => some v
  | _ => none

/-! ## Unary adapters -/

/-- The receive `res := <-req.ResponseCh`: the value received (`some none` is
a nil pointer, also what a closed and drained channel yields), or `none` when
the goroutine parks. -/
def recvOne (fd : Feed) : Option (Option GrpcResponse) :=
  match fd.items with
  | x :: _ => some x
  | [] => if fd.closed then some none else none

def GetNeighbor (arg : Arguments) (fd : Feed) : Run (Option Nat × Option GoError) :=
  let rf : Nat := 0
  let req := NewGrpcRequest REQ_NEIGHBOR arg.Name rf .absent
  match recvOne fd with
  | none => ⟨.blockedOnRecv, [.submit req]⟩
  | some none => ⟨.panicked, [.submit req, .read none]⟩
  | some (some res) =>
    match res.Err with
    | some err => ⟨.returned (none, some err), [.submit req, .read (some res)]⟩
    | none =>
      match assertPeer res.Data with
      | some v => ⟨.returned (some v, none), [.submit req, .read (some res)]⟩
      | none => ⟨.panicked, [.submit req, .read (some res)]⟩

/-- The value `&api.Error{}`: every field at its zero value (`SUCCESS` is the
zero value of the code enum). -/
def emptyApiError : ApiError := { Code := .SUCCESS, Msg := "" }

def neighbor (reqType : Nat) (arg : Arguments) (fd : Feed) :
    Run (Option ApiError × Option GoError) :=
  let none_ := emptyApiError
  let req := NewGrpcRequest reqType arg.Name arg.Rf .absent
  match recvOne fd with
  | none => ⟨.blockedOnRecv, [.submit req]⟩
  | some none => ⟨.panicked, [.submit req, .read none]⟩
  | some (some res) =>
    match res.Err with
    | some err => ⟨.returned (none, some err), [.submit req, .read (some res)]⟩
    | none => ⟨.returned (some none_, none), [.submit req, .read (some res)]⟩

def get (typ : Nat) (d : Payload) (fd : Feed) : Run (Payload × Option GoError) :=
  let req := NewGrpcRequest typ "" 0 d
  match recvOne fd with
  | none => ⟨.blockedOnRecv, [.submit req]⟩
  | some none => ⟨.panicked, [.submit req, .read none]⟩
  | some (some res) =>
    match res.Err with
    | some err => ⟨.returned (.absent, some err), [.submit req, .read (some res)]⟩
    | none => ⟨.returned (res.Data, none), [.submit req, .read (some res)]⟩

def mod (typ : Nat) (d : Payload) (fd : Feed) : Run (Option ApiError × Option GoError) :=
  let none_ := emptyApiError
  let req := NewGrpcRequest typ "" 0 d
  match recvOne fd with
  | none => ⟨.blockedOnRecv, [.submit req]⟩
  | some none => ⟨.panicked, [.submit req, .read none]⟩
  | some (some res) =>
    match res.Err with
    | some err => ⟨.returned (some none_, some err), [.submit req, .read (some res)]⟩
    | none => ⟨.returned (some none_, none), [.submit req, .read (some res)]⟩

/-- The common tail of the typed reads:
`d, err := s.get(...); if err != nil { return nil, err }; return d.(*api.T), nil`. -/
def typedGet (typ : Nat) (arg : Payload) (assert : Payload → Option Nat) (fd : Feed) :
    Run (Option Nat × Option GoError) :=
  let r := get typ arg fd
  match r.outcome with
  | .returned (_, some err) => ⟨.returned (none, some err), r.trace⟩
  | .returned (d, none) =>
    match assert d with
    | some v => ⟨.returned (some v, none), r.trace⟩
    | none => ⟨.panicked, r.trace⟩
  | .panicked => ⟨.panicked, r.trace⟩
  | .blockedOnRecv => ⟨.blockedOnRecv, r.trace⟩
  | .blockedOnSend => ⟨.blockedOnSend, r.trace⟩
  | .blockedOnStream => ⟨.blockedOnStream, r.trace⟩

def GetDefinedSet (arg : Nat) (fd : Feed) : Run (Option Nat × Option GoError) :=
  typedGet REQ_DEFINED_SET (.definedSet arg) assertDefinedSet fd

def GetStatement (arg : Nat) (fd : Feed) : Run (Option Nat × Option GoError) :=
  typedGet REQ_STATEMENT (.statement arg) assertStatement fd

def GetPolicy (arg : Nat) (fd : Feed) : Run (Option Nat × Option GoError) :=
  typedGet REQ_POLICY (.policy arg) assertPolicy fd

def GetPolicyAssignment (arg : Nat) (fd : Feed) : Run (Option Nat × Option GoError) :=
  typedGet REQ_POLICY_ASSIGNMENT (.policyAssignment arg) assertPolicyAssignment fd

def GetGlobalConfig (arg : Arguments) (fd : Feed) : Run (Option Nat × Option GoError) :=
  typedGet REQ_GLOBAL_CONFIG (.arguments arg) assertGlobal fd

/-! ## Server-streamed calls with a resource selector -/

/-- The closure `func(res) error { return stream.Send(res.Data.(*api.T)) }`. -/
def sendAsserted {σ : Type} (assert : Payload → Option Nat)
    (send : σ → Nat → σ × Option GoError) (s : σ) (res : GrpcResponse) : σ × SinkResult :=
  match assert res.Data with
  | none => (s, .panicked)
  | some v =>
    match send s v with
    | (s', none) => (s', .ok)
    | (s', some err) => (s', .failed err)

/-- The tail `s.bgpServerCh <- req; return handleMultipleResponses(req, f)` on
a freshly built envelope. -/
def submitAndStream {σ : Type} (req : GrpcRequest) (f : σ → GrpcResponse → σ × SinkResult)
    (fd : Feed) (s : σ) : StreamRun σ :=
  let r := handleMultipleResponses req f fd.items fd.closed 0 s
  { r with trace := .submit req :: r.trace }

def GetRib {σ : Type} (send : σ → Nat → σ × Option GoError) (arg : Arguments)
    (fd : Feed) (s : σ) : StreamRun σ :=
  let stream (reqType : Nat) : StreamRun σ :=
    submitAndStream (NewGrpcRequest reqType arg.Name arg.Rf .absent)
      (sendAsserted assertDestination send) fd s
  match arg.Resource with
  | .LOCAL => stream REQ_LOCAL_RIB
  | .GLOBAL => stream REQ_GLOBAL_RIB
  | .ADJ_IN => stream REQ_ADJ_RIB_IN
  | .ADJ_OUT => stream REQ_ADJ_RIB_OUT
  | .VRF => stream REQ_VRF
  | _ => ⟨.returned (some (.unsupportedResourceType arg.Resource)), [], s, 0⟩

def MonitorBestChanged {σ : Type} (send : σ → Nat → σ × Option GoError) (arg : Arguments)
    (fd : Feed) (s : σ) : StreamRun σ :=
  let stream (reqType : Nat) : StreamRun σ :=
    submitAndStream (NewGrpcRequest reqType "" arg.Rf .absent)
      (sendAsserted assertDestination send) fd s
  match arg.Resource with
  | .GLOBAL => stream REQ_MONITOR_GLOBAL_BEST_CHANGED
  | _ => ⟨.returned (some (.unsupportedResourceType arg.Resource)), [], s, 0⟩

def GetMrt {σ : Type} (send : σ → Nat → σ × Option GoError) (arg : MrtArguments)
    (fd : Feed) (s : σ) : StreamRun σ :=
  let stream (reqType : Nat) : StreamRun σ :=
    submitAndStream (NewGrpcRequest reqType arg.NeighborAddress arg.Rf (.uint64 arg.Interval))
      (sendAsserted assertMrtMessage send) fd s
  match arg.Resource with
  | .GLOBAL => stream REQ_MRT_GLOBAL_RIB
  | .LOCAL => stream REQ_MRT_LOCAL_RIB
  | _ => ⟨.returned (some (.unsupportedResourceType arg.Resource)), [], s, 0⟩

/-! ## The client-streamed adapter -/

/-- The method `ModPath(stream)`.  `recvd` lists what the successive calls of
`stream.Recv` return (an exhausted list: `Recv` never returns); `feeds` lists,
per submitted envelope, what the actor delivers on its response channel (an
exhausted list: the actor delivers nothing). -/
def ModPath (sendAndClose : ApiError → Option GoError) :
    List RecvResult → List Feed → Run (Option GoError)
  | [], _ => ⟨.blockedOnStream, []⟩
  | r :: rs, feeds =>
    match r.err with
    | some .EOF =>
      let e : ApiError := { Code := .SUCCESS, Msg := "" }
      ⟨.returned (sendAndClose e), [.recv r, .sendAndClose e]⟩
    | some err => ⟨.returned (some err), [.recv r]⟩
    | none =>
      match r.arg with
      | none => ⟨.panicked, [.recv r]⟩
      | some arg =>
        if arg.Resource ≠ .GLOBAL ∧ arg.Resource ≠ .VRF then
          ⟨.returned (some (.unsupportedResource arg.Resource)), [.recv r]⟩
        else
          let req := NewGrpcRequest REQ_MOD_PATH arg.Name 0 (.modPathArguments arg)
          match recvOne (feeds.headD ⟨[], false⟩) with
          | none => ⟨.blockedOnRecv, [.recv r, .submit req]⟩
          | some none => ⟨.panicked, [.recv r, .submit req, .read none]⟩
          | some (some res) =>
            match res.Err with
            | some err => ⟨.returned (some err), [.recv r, .submit req, .read (some res)]⟩
            | none =>
              let rest := ModPath sendAndClose rs feeds.tail
              { rest with trace := .recv r :: .submit req :: .read (some res) :: rest.trace }

/-! ## Vocabulary of the statements -/

/-- The sink state reached when each response of `rs`, in turn, carries no
error and is accepted by `f` (`f` returns nil on it); `none` as soon as one
response carries an error or `f` does not return nil on it. -/
def accepted {σ : Type} (f : σ → GrpcResponse → σ × SinkResult) :
    σ → List GrpcResponse → Option σ
  | s, [] => some s
  | s, r :: rs =>
    match r.ResponseErr, f s r with
    | none, (s', .ok) => accepted f s' rs
    | _, _ => none

/-- Response `r`, met with the sink in state `s`, ends the loop with error
`e`: it carries `e`, or it carries no error and `f` returns `e` on it. -/
def failsWith {σ : Type} (f : σ → GrpcResponse → σ × SinkResult) (s : σ) (r : GrpcResponse)
    (e : GoError) : Prop :=
  r.ResponseErr = some e ∨ (r.ResponseErr = none ∧ (f s r).2 = .failed e)

/-- A sink that forwards five items and fails on the sixth; its state counts
the items forwarded. -/
def fiveThenFail (n : Nat) (_ : GrpcResponse) : Nat × SinkResult :=
  if n < 5 then (n + 1, .ok) else (n, .failed (.other 7))

/-- A data response carrying peer `v`. -/
def peerEvent (v : Nat) : GrpcResponse := { ResponseErr := none, Data := .peer v }

/-- One item of a `ModPath` input stream together with what the actor delivers
on the response channel of the item's envelope: `reply` first, then `more`. -/
structure Step where
  arg : ModPathArguments
  reply : GrpcResponse
  more : List (Option GrpcResponse)
  closed : Bool
  deriving DecidableEq, Repr

/-- The result of `stream.Recv` that hands over the item. -/
def Step.recv (a : Step) : RecvResult := { arg := some a.arg, err := none }

/-- What the actor delivers for the item. -/
def Step.feed (a : Step) : Feed := { items := some a.reply :: a.more, closed := a.closed }

/-- The item's scope is supported and the actor acknowledges the item with a
nil error. -/
def Step.ok (a : Step) : Prop :=
  (a.arg.Resource = .GLOBAL ∨ a.arg.Resource = .VRF) ∧ a.reply.ResponseErr = none

/-- The operations of one loop iteration of `ModPath` on an item: receive it,
submit its envelope, read one response. -/
def Step.trace (a : Step) : List Event :=
  [.recv a.recv,
   .submit (NewGrpcRequest REQ_MOD_PATH a.arg.Name 0 (.modPathArguments a.arg)),
   .read (some a.reply)]

/-- A path add for the global table, acknowledged by the actor. -/
def globalAdd (name : String) : Step :=
  { arg := { Resource := .GLOBAL, Name := name, Paths := 1 }
    reply := { ResponseErr := none, Data := .absent }
    more := []
    closed := false }

/-- The operations of the loop body on a response that is accepted. -/
def acceptedTrace (rs : List GrpcResponse) : List Event :=
  rs.flatMap fun r => [.read (some r), .call r]

/-! ## Lemmas on `handleMultipleResponses` -/

theorem submits_append (xs ys : List Event) : submits (xs ++ ys) = submits xs ++ submits ys := by
  induction xs with
  | nil => rfl
  | cons e es ih => cases e <;> simp [submits, ih]

theorem calls_append (xs ys : List Event) : calls (xs ++ ys) = calls xs ++ calls ys := by
  induction xs with
  | nil => rfl
  | cons e es ih => cases e <;> simp [calls, ih]

theorem reads_append (xs ys : List Event) : reads (xs ++ ys) = reads xs ++ reads ys := by
  induction xs with
  | nil => rfl
  | cons e es ih => cases e <;> simp [reads, ih]

theorem signals_append (xs ys : List Event) : signals (xs ++ ys) = signals xs + signals ys := by
  induction xs with
  | nil => simp [signals]
  | cons e es ih => cases e <;> simp [signals, ih]; omega

theorem recvs_append (xs ys : List Event) : recvs (xs ++ ys) = recvs xs ++ recvs ys := by
  induction xs with
  | nil => rfl
  | cons e es ih => cases e <;> simp [recvs, ih]

theorem acks_append (xs ys : List Event) : acks (xs ++ ys) = acks xs ++ acks ys := by
  induction xs with
  | nil => rfl
  | cons e es ih => cases e <;> simp [acks, ih]

theorem calls_acceptedTrace (rs : List GrpcResponse) : calls (acceptedTrace rs) = rs := by
  induction rs with
  | nil => rfl
  | cons r rs ih =>
    have h : acceptedTrace (r :: rs) = [.read (some r), .call r] ++ acceptedTrace rs := by
      simp [acceptedTrace]
    rw [h, calls_append, ih]; simp [calls]

theorem reads_acceptedTrace (rs : List GrpcResponse) :
    reads (acceptedTrace rs) = rs.map some := by
  induction rs with
  | nil => rfl
  | cons r rs ih =>
    have h : acceptedTrace (r :: rs) = [.read (some r), .call r] ++ acceptedTrace rs := by
      simp [acceptedTrace]
    rw [h, reads_append, ih]; simp [reads]

theorem signals_acceptedTrace (rs : List GrpcResponse) : signals (acceptedTrace rs) = 0 := by
  induction rs with
  | nil => rfl
  | cons r rs ih =>
    have h : acceptedTrace (r :: rs) = [.read (some r), .call r] ++ acceptedTrace rs := by
      simp [acceptedTrace]
    rw [h, signals_append, ih]; simp [signals]

theorem submits_acceptedTrace (rs : List GrpcResponse) : submits (acceptedTrace rs) = [] := by
  induction rs with
  | nil => rfl
  | cons r rs ih =>
    have h : acceptedTrace (r :: rs) = [.read (some r), .call r] ++ acceptedTrace rs := by
      simp [acceptedTrace]
    rw [h, submits_append, ih]; simp [submits]

/-- Over a prefix of accepted responses the loop only reads and forwards. -/
theorem handleMultipleResponses_accepted {σ : Type} (req : GrpcRequest)
    (f : σ → GrpcResponse → σ × SinkResult) (pre : List GrpcResponse)
    (tail : List (Option GrpcResponse)) (closed : Bool) (endLen : Nat) (s s₁ : σ)
    (h : accepted f s pre = some s₁) :
    handleMultipleResponses req f (pre.map some ++ tail) closed endLen s =
      { handleMultipleResponses req f tail closed endLen s₁ with
        trace := acceptedTrace pre ++
          (handleMultipleResponses req f tail closed endLen s₁).trace } := by
  induction pre generalizing s with
  | nil =>
    simp [accepted] at h
    subst h
    simp [acceptedTrace]
  | cons r rs ih =>
    cases hr : r.ResponseErr with
    | some e => simp [accepted, hr] at h
    | none =>
      rcases hf : f s r with ⟨s', res⟩
      cases res with
      | failed e => simp [accepted, hr, hf] at h
      | panicked => simp [accepted, hr, hf] at h
      | ok =>
        simp only [accepted, hr, hf] at h
        have ih' := ih s' h
        simp only [List.map_cons, List.cons_append, handleMultipleResponses,
          GrpcResponse.Err, hr, hf]
        simp only [List.append_eq]
        rw [ih']
        simp [acceptedTrace]

/-- A sink that never fails accepts every sequence of error-free responses. -/
theorem accepted_of_never_fails {σ : Type} (f : σ → GrpcResponse → σ × SinkResult)
    (hf : ∀ s r, (f s r).2 = .ok) (rs : List GrpcResponse)
    (hrs : ∀ r ∈ rs, r.ResponseErr = none) (s : σ) :
    ∃ s₁, accepted f s rs = some s₁ := by
  induction rs generalizing s with
  | nil => exact ⟨s, rfl⟩
  | cons r rs ih =>
    have hr : r.ResponseErr = none := hrs r (List.mem_cons_self _ _)
    have h2 := hf s r
    rcases hfs : f s r with ⟨s', res⟩
    rw [hfs] at h2
    simp only at h2
    subst h2
    obtain ⟨s₁, hs₁⟩ := ih (fun x hx => hrs x (List.mem_cons_of_mem _ hx)) s'
    exact ⟨s₁, by simp [accepted, hr, hfs, hs₁]⟩

/-! ## The streaming adapter: statements -/

/-- C1: `handleMultipleResponses` on an envelope freshly built by
`NewGrpcRequest` (end-signal channel empty) stops at the first failure.  When
the responses `pre` before position k carry no error and are accepted by the
sink, and response `r` at position k carries error `e`, the call returns `e`,
`f` has been applied to exactly `pre` in order, exactly `pre` and `r` have been
read (nothing of `post`), and one signal has been written, which the channel
now holds.  When instead `r` carries no error and `f` returns `e` on it, the
same holds with `f` applied to `pre` and then `r`. -/
theorem handleMultipleResponses_stops_at_first_failure {σ : Type}
    (reqType : Nat) (name : String) (rf : Nat) (d : Payload)
    (f : σ → GrpcResponse → σ × SinkResult)
    (pre : List GrpcResponse) (r : GrpcResponse) (post : List (Option GrpcResponse))
    (closed : Bool) (s s₁ : σ)
    (hpre : accepted f s pre = some s₁) :
    (∀ e, r.ResponseErr = some e →
      let run := handleMultipleResponses (NewGrpcRequest reqType name rf d) f
        (pre.map some ++ some r :: post) closed 0 s
      run.outcome = .returned (some e) ∧ calls run.trace = pre ∧
        reads run.trace = pre.map some ++ [some r] ∧
        signals run.trace = 1 ∧ run.endLen = 1 ∧ run.sink = s₁) ∧
    (∀ e s₂, r.ResponseErr = none → f s₁ r = (s₂, .failed e) →
      let run := handleMultipleResponses (NewGrpcRequest reqType name rf d) f
        (pre.map some ++ some r :: post) closed 0 s
      run.outcome = .returned (some e) ∧ calls run.trace = pre ++ [r] ∧
        reads run.trace = pre.map some ++ [some r] ∧
        signals run.trace = 1 ∧ run.endLen = 1 ∧ run.sink = s₂) := by
  constructor
  · intro e he
    simp only [handleMultipleResponses_accepted _ f pre _ closed 0 s s₁ hpre,
      handleMultipleResponses, GrpcResponse.Err, he, signalAndReturn, chanSend,
      NewGrpcRequest]
    simp [calls_append, reads_append, signals_append, calls_acceptedTrace,
      reads_acceptedTrace, signals_acceptedTrace, calls, reads, signals]
  · intro e s₂ he hf
    simp only [handleMultipleResponses_accepted _ f pre _ closed 0 s s₁ hpre,
      handleMultipleResponses, GrpcResponse.Err, he, hf, signalAndReturn, chanSend,
      NewGrpcRequest]
    simp [calls_append, reads_append, signals_append, calls_acceptedTrace,
      reads_acceptedTrace, signals_acceptedTrace, calls, reads, signals]

/-- C1, the session-state subscription of the spec's scenario 4: five events
are forwarded, the sink fails on the sixth, a seventh is never read. -/
theorem handleMultipleResponses_stops_at_first_failure_witness :
    accepted fiveThenFail 0 ((List.range 5).map peerEvent) = some 5 ∧
    (
      let run := handleMultipleResponses
        (NewGrpcRequest REQ_MONITOR_NEIGHBOR_PEER_STATE "10.0.0.1" 0 .absent) fiveThenFail
        (((List.range 5).map peerEvent).map some ++ some (peerEvent 5) :: [some (peerEvent 6)])
        false 0 0
      run.outcome = .returned (some (.other 7)) ∧
        calls run.trace = (List.range 5).map peerEvent ++ [peerEvent 5] ∧
        reads run.trace = ((List.range 5).map peerEvent).map some ++ [some (peerEvent 5)] ∧
        signals run.trace = 1 ∧ run.endLen = 1 ∧ run.sink = 5) :=
  ⟨by decide,
   (handleMultipleResponses_stops_at_first_failure REQ_MONITOR_NEIGHBOR_PEER_STATE "10.0.0.1" 0
      .absent fiveThenFail ((List.range 5).map peerEvent) (peerEvent 5) [some (peerEvent 6)]
      false 0 5 (by decide)).2 (.other 7) 5 rfl (by decide)⟩

/-- C2: when the actor delivers `n ≥ 0` responses that all carry a nil error
and then closes the channel, and the sink never fails, `handleMultipleResponses`
returns nil, `f` has been applied to each response once and in the order
delivered, and nothing is written to the end-signal channel.  With `n = 0` the
list of applications of `f` is empty. -/
theorem handleMultipleResponses_clean_close {σ : Type} (req : GrpcRequest)
    (f : σ → GrpcResponse → σ × SinkResult) (rs : List GrpcResponse) (endLen : Nat) (s : σ)
    (hrs : ∀ r ∈ rs, r.ResponseErr = none) (hf : ∀ s r, (f s r).2 = .ok) :
    let run := handleMultipleResponses req f (rs.map some) true endLen s
    run.outcome = .returned none ∧ calls run.trace = rs ∧ reads run.trace = rs.map some ∧
      signals run.trace = 0 ∧ run.endLen = endLen := by
  obtain ⟨s₁, hs₁⟩ := accepted_of_never_fails f hf rs hrs s
  have h := handleMultipleResponses_accepted req f rs [] true endLen s s₁ hs₁
  rw [List.append_nil] at h
  simp only [h, handleMultipleResponses]
  simp [calls_append, reads_append, signals_append, calls_acceptedTrace,
    reads_acceptedTrace, signals_acceptedTrace, calls, reads, signals]

/-- C2 on a neighbor list of two peers, and on an empty one. -/
theorem handleMultipleResponses_clean_close_witness :
    (∀ r ∈ [peerEvent 1, peerEvent 2], r.ResponseErr = none) ∧
    (∀ (s : Nat) (r : GrpcResponse), ((fun n _ => (n + 1, SinkResult.ok)) s r).2 = .ok) ∧
    (
      let run := handleMultipleResponses (NewGrpcRequest REQ_NEIGHBORS "" 0 .absent)
        (fun n _ => (n + 1, SinkResult.ok)) ([peerEvent 1, peerEvent 2].map some) true 0 0
      run.outcome = .returned none ∧ calls run.trace = [peerEvent 1, peerEvent 2] ∧
        reads run.trace = [peerEvent 1, peerEvent 2].map some ∧
        signals run.trace = 0 ∧ run.endLen = 0) :=
  ⟨by decide, fun _ _ => rfl,
   handleMultipleResponses_clean_close (NewGrpcRequest REQ_NEIGHBORS "" 0 .absent)
     (fun n _ => (n + 1, SinkResult.ok)) [peerEvent 1, peerEvent 2] 0 0 (by decide)
     (fun _ _ => rfl)⟩

/-- C8 fails as stated: with a signal already buffered in the capacity-1
end-signal channel, the send on an error response parks the adapter: nothing is
dropped and the error is not returned. -/
theorem handleMultipleResponses_full_endCh_blocks :
    let run := handleMultipleResponses (NewGrpcRequest REQ_NEIGHBORS "" 0 .absent)
      (fun (n : Nat) _ => (n + 1, SinkResult.ok))
      [some { ResponseErr := some (.other 1), Data := .absent }] true 1 0
    run.outcome = .blockedOnSend ∧ run.outcome ≠ .returned (some (.other 1)) ∧
      signals run.trace = 0 := by
  decide

/-- C8, amended: the signal of `handleMultipleResponses` is a plain send on the
capacity-1 end-signal channel.  On an error response or a sink failure, when
the channel is empty (as `NewGrpcRequest` builds it) the send completes, the
channel then holds exactly one signal and the error is returned; when the
channel already holds a signal the adapter parks on the send, writes nothing
and returns nothing, and the channel still holds that one signal. -/
theorem handleMultipleResponses_signal_is_plain_send {σ : Type}
    (reqType : Nat) (name : String) (rf : Nat) (d : Payload)
    (f : σ → GrpcResponse → σ × SinkResult)
    (pre : List GrpcResponse) (r : GrpcResponse) (post : List (Option GrpcResponse))
    (closed : Bool) (s s₁ : σ) (e : GoError)
    (hpre : accepted f s pre = some s₁) (hfail : failsWith f s₁ r e) :
    (
      let run := handleMultipleResponses (NewGrpcRequest reqType name rf d) f
        (pre.map some ++ some r :: post) closed 0 s
      run.outcome = .returned (some e) ∧ signals run.trace = 1 ∧ run.endLen = 1) ∧
    (
      let run := handleMultipleResponses (NewGrpcRequest reqType name rf d) f
        (pre.map some ++ some r :: post) closed 1 s
      run.outcome = .blockedOnSend ∧ signals run.trace = 0 ∧ run.endLen = 1) := by
  rcases hfail with he | ⟨he, hf⟩
  · constructor <;>
    · simp only [handleMultipleResponses_accepted _ f pre _ closed _ s s₁ hpre,
        handleMultipleResponses, GrpcResponse.Err, he, signalAndReturn, chanSend,
        NewGrpcRequest]
      simp [signals_append, signals_acceptedTrace, signals]
  · rcases hfs : f s₁ r with ⟨s₂, res⟩
    rw [hfs] at hf
    simp only at hf
    subst hf
    constructor <;>
    · simp only [handleMultipleResponses_accepted _ f pre _ closed _ s s₁ hpre,
        handleMultipleResponses, GrpcResponse.Err, he, hfs, signalAndReturn, chanSend,
        NewGrpcRequest]
      simp [signals_append, signals_acceptedTrace, signals]

/-- C8, amended, on a stream whose second response carries an error. -/
theorem handleMultipleResponses_signal_is_plain_send_witness :
    accepted fiveThenFail 0 [peerEvent 1] = some 1 ∧
    failsWith fiveThenFail 1 { ResponseErr := some (.other 3), Data := .absent } (.other 3) ∧
    (
      let run := handleMultipleResponses (NewGrpcRequest REQ_NEIGHBORS "" 0 .absent) fiveThenFail
        ([peerEvent 1].map some ++ some { ResponseErr := some (.other 3), Data := .absent } :: [])
        true 1 0
      run.outcome = .blockedOnSend ∧ signals run.trace = 0 ∧ run.endLen = 1) :=
  ⟨by decide, Or.inl rfl,
   (handleMultipleResponses_signal_is_plain_send REQ_NEIGHBORS "" 0 .absent fiveThenFail
      [peerEvent 1] { ResponseErr := some (.other 3), Data := .absent } [] true 0 1 (.other 3)
      (by decide) (Or.inl rfl)).2⟩

/-! ## The client-streamed adapter: statements -/

theorem submits_stepTraces (steps : List Step) :
    submits (steps.flatMap Step.trace) = steps.map fun a =>
      NewGrpcRequest REQ_MOD_PATH a.arg.Name 0 (.modPathArguments a.arg) := by
  induction steps with
  | nil => rfl
  | cons a as ih =>
    rw [List.flatMap_cons, submits_append, ih]; simp [Step.trace, submits]

theorem recvs_stepTraces (steps : List Step) :
    recvs (steps.flatMap Step.trace) = steps.map Step.recv := by
  induction steps with
  | nil => rfl
  | cons a as ih =>
    rw [List.flatMap_cons, recvs_append, ih]; simp [Step.trace, recvs]

theorem acks_stepTraces (steps : List Step) : acks (steps.flatMap Step.trace) = [] := by
  induction steps with
  | nil => rfl
  | cons a as ih =>
    rw [List.flatMap_cons, acks_append, ih]; simp [Step.trace, acks]

/-- Over a prefix of supported, acknowledged items `ModPath` performs one
iteration per item and goes on with the rest of the input. -/
theorem ModPath_steps (sendAndClose : ApiError → Option GoError) (steps : List Step)
    (rs : List RecvResult) (fs : List Feed) (h : ∀ a ∈ steps, a.ok) :
    ModPath sendAndClose (steps.map Step.recv ++ rs) (steps.map Step.feed ++ fs) =
      { ModPath sendAndClose rs fs with
        trace := steps.flatMap Step.trace ++ (ModPath sendAndClose rs fs).trace } := by
  induction steps with
  | nil => simp
  | cons a as ih =>
    have ha : a.ok := h a (List.mem_cons_self _ _)
    have ih' := ih (fun x hx => h x (List.mem_cons_of_mem _ hx))
    obtain ⟨hscope, hreply⟩ := ha
    have hcond : ¬ (a.arg.Resource ≠ .GLOBAL ∧ a.arg.Resource ≠ .VRF) := by
      rcases hscope with h1 | h1 <;> simp [h1]
    simp only [List.map_cons, List.cons_append, ModPath, Step.recv, Step.feed, hcond,
      if_false, List.headD_cons, recvOne, GrpcResponse.Err, hreply, List.tail_cons]
    simp only [List.append_eq]
    rw [ih']
    simp [Step.trace, Step.recv]

/-- C3: when the items before item j have supported scopes and are acknowledged
with a nil error, and item j (`a`, scope `GLOBAL` or `VRF`) is answered with
error `e`, `ModPath` returns `e`, sends no terminal acknowledgment, submits
exactly the envelopes of items 1..j in input order, and receives nothing of the
input after item j (`rs`). -/
theorem ModPath_aborts_on_first_failing_item (sendAndClose : ApiError → Option GoError)
    (steps : List Step) (a : Step) (e : GoError) (rs : List RecvResult) (fs : List Feed)
    (hsteps : ∀ x ∈ steps, x.ok)
    (hscope : a.arg.Resource = .GLOBAL ∨ a.arg.Resource = .VRF)
    (herr : a.reply.ResponseErr = some e) :
    let run := ModPath sendAndClose (steps.map Step.recv ++ a.recv :: rs)
      (steps.map Step.feed ++ a.feed :: fs)
    run.outcome = .returned (some e) ∧
      run.trace = (steps ++ [a]).flatMap Step.trace ∧
      acks run.trace = [] ∧
      submits run.trace = (steps ++ [a]).map (fun x =>
        NewGrpcRequest REQ_MOD_PATH x.arg.Name 0 (.modPathArguments x.arg)) ∧
      recvs run.trace = (steps ++ [a]).map Step.recv := by
  have hcond : ¬ (a.arg.Resource ≠ .GLOBAL ∧ a.arg.Resource ≠ .VRF) := by
    rcases hscope with h1 | h1 <;> simp [h1]
  have hrun : ModPath sendAndClose (a.recv :: rs) (a.feed :: fs) =
      ⟨.returned (some e), Step.trace a⟩ := by
    simp [ModPath, Step.recv, Step.feed, hcond, recvOne, GrpcResponse.Err, herr, Step.trace]
  have htrace : (steps ++ [a]).flatMap Step.trace =
      steps.flatMap Step.trace ++ Step.trace a := by simp
  simp only [ModPath_steps sendAndClose steps _ _ hsteps, hrun]
  refine ⟨trivial, htrace.symm, ?_, ?_, ?_⟩
  · rw [← htrace, acks_stepTraces]
  · rw [← htrace, submits_stepTraces]
  · rw [← htrace, recvs_stepTraces]

/-- C3 on a stream of three path adds whose second item the actor refuses. -/
theorem ModPath_aborts_on_first_failing_item_witness :
    (∀ x ∈ [globalAdd "a"], x.ok) ∧
    ((
      let run := ModPath (fun _ => none)
        ([globalAdd "a"].map Step.recv ++
          Step.recv { globalAdd "b" with reply := ⟨some (.other 9), .absent⟩ } ::
          [(globalAdd "c").recv, ⟨none, some .EOF⟩])
        ([globalAdd "a"].map Step.feed ++
          Step.feed { globalAdd "b" with reply := ⟨some (.other 9), .absent⟩ } ::
          [(globalAdd "c").feed])
      run.outcome = .returned (some (.other 9)) ∧ acks run.trace = [])) :=
  ⟨by simp [Step.ok, globalAdd],
   have h := ModPath_aborts_on_first_failing_item (fun _ => none) [globalAdd "a"]
     { globalAdd "b" with reply := ⟨some (.other 9), .absent⟩ } (.other 9)
     [(globalAdd "c").recv, ⟨none, some .EOF⟩] [(globalAdd "c").feed]
     (by simp [Step.ok, globalAdd]) (Or.inl rfl) rfl
   ⟨h.1, h.2.2.1⟩⟩

/-- C4: when the K ≥ 0 items of the input have scope `GLOBAL` or `VRF` and are
each acknowledged with a nil error, and `stream.Recv` then reports `io.EOF`,
`ModPath` performs, item by item in input order, one receive, one submission
and one read, then sends one terminal acknowledgment with code `SUCCESS`, and
returns what that send returns.  The K envelopes carry tag `REQ_MOD_PATH`, the
item's name as correlation key and the item as payload. -/
theorem ModPath_acknowledges_once (sendAndClose : ApiError → Option GoError)
    (steps : List Step) (eofArg : Option ModPathArguments) (rs : List RecvResult)
    (fs : List Feed) (hsteps : ∀ x ∈ steps, x.ok) :
    let run := ModPath sendAndClose (steps.map Step.recv ++ ⟨eofArg, some .EOF⟩ :: rs)
      (steps.map Step.feed ++ fs)
    run.outcome = .returned (sendAndClose { Code := .SUCCESS, Msg := "" }) ∧
      run.trace = steps.flatMap Step.trace ++
        [.recv ⟨eofArg, some .EOF⟩, .sendAndClose { Code := .SUCCESS, Msg := "" }] ∧
      submits run.trace = steps.map (fun x =>
        NewGrpcRequest REQ_MOD_PATH x.arg.Name 0 (.modPathArguments x.arg)) ∧
      (∀ req ∈ submits run.trace, req.RequestType = REQ_MOD_PATH) ∧
      (submits run.trace).map (fun req => (req.Name, req.Data)) =
        steps.map (fun x => (x.arg.Name, Payload.modPathArguments x.arg)) ∧
      acks run.trace = [{ Code := .SUCCESS, Msg := "" }] := by
  have hrun : ModPath sendAndClose (⟨eofArg, some .EOF⟩ :: rs) fs =
      ⟨.returned (sendAndClose { Code := .SUCCESS, Msg := "" }),
        [.recv ⟨eofArg, some .EOF⟩, .sendAndClose { Code := .SUCCESS, Msg := "" }]⟩ := by
    simp [ModPath]
  simp only [ModPath_steps sendAndClose steps _ _ hsteps, hrun]
  have hsub : submits (steps.flatMap Step.trace ++
      [.recv ⟨eofArg, some .EOF⟩, .sendAndClose { Code := .SUCCESS, Msg := "" }]) =
      steps.map (fun x =>
        NewGrpcRequest REQ_MOD_PATH x.arg.Name 0 (.modPathArguments x.arg)) := by
    rw [submits_append, submits_stepTraces]; simp [submits]
  refine ⟨trivial, trivial, hsub, ?_, ?_, ?_⟩
  · rw [hsub]
    intro req hreq
    obtain ⟨x, _, hx⟩ := List.mem_map.mp hreq
    rw [← hx]; rfl
  · rw [hsub, List.map_map]; rfl
  · rw [acks_append, acks_stepTraces]; simp [acks]

/-- C4 on the spec's scenario 3: three path adds, all acknowledged. -/
theorem ModPath_acknowledges_once_witness :
    (∀ x ∈ [globalAdd "a", globalAdd "b", globalAdd "c"], x.ok) ∧
    ((
      let run := ModPath (fun _ => none)
        ([globalAdd "a", globalAdd "b", globalAdd "c"].map Step.recv ++ ⟨none, some .EOF⟩ :: [])
        ([globalAdd "a", globalAdd "b", globalAdd "c"].map Step.feed ++ [])
      run.outcome = .returned none ∧ acks run.trace = [{ Code := .SUCCESS, Msg := "" }])) :=
  ⟨by simp [Step.ok, globalAdd],
   have h := ModPath_acknowledges_once (fun _ => none)
     [globalAdd "a", globalAdd "b", globalAdd "c"] none [] []
     (by simp [Step.ok, globalAdd])
   ⟨h.1, h.2.2.2.2.2⟩⟩

/-- C6 fails as stated: an item with scope `LOCAL` received after an
acknowledged `GLOBAL` item is rejected, yet one envelope (that of the first
item) has been submitted during the call. -/
theorem ModPath_unsupported_after_acknowledged :
    let run := ModPath (fun _ => none)
      [(globalAdd "a").recv, ⟨some { Resource := .LOCAL, Name := "b", Paths := 1 }, none⟩]
      [(globalAdd "a").feed]
    run.outcome = .returned (some (.unsupportedResource .LOCAL)) ∧
      (submits run.trace).length = 1 ∧ (submits run.trace).length ≠ 0 := by
  decide

/-- C6, amended: when the items before it have supported scopes and are
acknowledged with a nil error, an item whose scope is neither `GLOBAL` nor
`VRF` makes `ModPath` return an 'unsupported resource' error without a terminal
acknowledgment and without an envelope for that item: the envelopes submitted
during the call are exactly those of the items received before it, none when
it is the first item. -/
theorem ModPath_rejects_unsupported_scope (sendAndClose : ApiError → Option GoError)
    (steps : List Step) (arg : ModPathArguments) (rs : List RecvResult) (fs : List Feed)
    (hsteps : ∀ x ∈ steps, x.ok)
    (hscope : arg.Resource ≠ .GLOBAL ∧ arg.Resource ≠ .VRF) :
    let run := ModPath sendAndClose (steps.map Step.recv ++ ⟨some arg, none⟩ :: rs)
      (steps.map Step.feed ++ fs)
    run.outcome = .returned (some (.unsupportedResource arg.Resource)) ∧
      run.trace = steps.flatMap Step.trace ++ [.recv ⟨some arg, none⟩] ∧
      acks run.trace = [] ∧
      submits run.trace = steps.map (fun x =>
        NewGrpcRequest REQ_MOD_PATH x.arg.Name 0 (.modPathArguments x.arg)) ∧
      (steps = [] → submits run.trace = []) := by
  have hrun : ModPath sendAndClose (⟨some arg, none⟩ :: rs) fs =
      ⟨.returned (some (.unsupportedResource arg.Resource)), [.recv ⟨some arg, none⟩]⟩ := by
    simp [ModPath, hscope]
  simp only [ModPath_steps sendAndClose steps _ _ hsteps, hrun]
  have hsub : submits (steps.flatMap Step.trace ++ [.recv ⟨some arg, none⟩]) =
      steps.map (fun x =>
        NewGrpcRequest REQ_MOD_PATH x.arg.Name 0 (.modPathArguments x.arg)) := by
    rw [submits_append, submits_stepTraces]; simp [submits]
  refine ⟨trivial, trivial, ?_, hsub, ?_⟩
  · rw [acks_append, acks_stepTraces]; simp [acks]
  · intro h0; rw [hsub, h0]; rfl

/-- C6, amended, on a stream whose first item has scope `ADJ_IN`. -/
theorem ModPath_rejects_unsupported_scope_witness :
    (∀ x ∈ ([] : List Step), x.ok) ∧
    (Resource.ADJ_IN ≠ .GLOBAL ∧ Resource.ADJ_IN ≠ .VRF) ∧
    ((
      let run := ModPath (fun _ => none)
        (([] : List Step).map Step.recv ++
          ⟨some { Resource := .ADJ_IN, Name := "x", Paths := 0 }, none⟩ :: [])
        (([] : List Step).map Step.feed ++ [])
      run.outcome = .returned (some (.unsupportedResource .ADJ_IN)) ∧
        submits run.trace = [])) :=
  ⟨by simp, by decide,
   have h := ModPath_rejects_unsupported_scope (fun _ => none) []
     { Resource := .ADJ_IN, Name := "x", Paths := 0 } [] [] (by simp) (by decide)
   ⟨h.1, h.2.2.2.2 rfl⟩⟩

/-! ## Selector routing: statements -/

/-- The streaming loop submits nothing. -/
theorem submits_handleMultipleResponses {σ : Type} (req : GrpcRequest)
    (f : σ → GrpcResponse → σ × SinkResult) (items : List (Option GrpcResponse))
    (closed : Bool) (endLen : Nat) (s : σ) :
    submits (handleMultipleResponses req f items closed endLen s).trace = [] := by
  induction items generalizing s with
  | nil => simp [handleMultipleResponses, submits]
  | cons x xs ih =>
    cases x with
    | none => simp [handleMultipleResponses, submits]
    | some res =>
      cases hr : res.ResponseErr with
      | some e =>
        simp only [handleMultipleResponses, GrpcResponse.Err, hr, signalAndReturn]
        split <;> simp [submits]
      | none =>
        rcases hf : f s res with ⟨s', out⟩
        cases out with
        | ok =>
          simp only [handleMultipleResponses, GrpcResponse.Err, hr, hf]
          simp [submits, ih]
        | failed e =>
          simp only [handleMultipleResponses, GrpcResponse.Err, hr, hf, signalAndReturn]
          split <;> simp [submits]
        | panicked => simp [handleMultipleResponses, GrpcResponse.Err, hr, hf, submits]

/-- A streamed call on a fresh envelope submits that envelope and no other. -/
theorem submits_submitAndStream {σ : Type} (req : GrpcRequest)
    (f : σ → GrpcResponse → σ × SinkResult) (fd : Feed) (s : σ) :
    submits (submitAndStream req f fd s).trace = [req] := by
  simp [submitAndStream, submits, submits_handleMultipleResponses]

/-- C5: the selector-to-tag routing of `GetRib`, `MonitorBestChanged` and
`GetMrt`.  A selector of the table makes the call submit exactly one envelope,
whose tag field is the tag of the table and whose name and route family fields
are those of the argument (`GetRib`: the argument's name; `MonitorBestChanged`:
the empty name; `GetMrt`: the neighbor address, with the interval as payload);
every other selector makes the call return an 'unsupported resource type'
error having done nothing, in particular having submitted no envelope. -/
theorem selector_routing {σ : Type} (send : σ → Nat → σ × Option GoError)
    (arg : Arguments) (marg : MrtArguments) (fd : Feed) (s : σ) :
    ((arg.Resource = .LOCAL → submits (GetRib send arg fd s).trace =
        [{ RequestType := REQ_LOCAL_RIB, Name := arg.Name, RouteFamily := arg.Rf,
           ResponseCh := 8, EndCh := 1, Err := none, Data := .absent }]) ∧
     (arg.Resource = .GLOBAL → submits (GetRib send arg fd s).trace =
        [{ RequestType := REQ_GLOBAL_RIB, Name := arg.Name, RouteFamily := arg.Rf,
           ResponseCh := 8, EndCh := 1, Err := none, Data := .absent }]) ∧
     (arg.Resource = .ADJ_IN → submits (GetRib send arg fd s).trace =
        [{ RequestType := REQ_ADJ_RIB_IN, Name := arg.Name, RouteFamily := arg.Rf,
           ResponseCh := 8, EndCh := 1, Err := none, Data := .absent }]) ∧
     (arg.Resource = .ADJ_OUT → submits (GetRib send arg fd s).trace =
        [{ RequestType := REQ_ADJ_RIB_OUT, Name := arg.Name, RouteFamily := arg.Rf,
           ResponseCh := 8, EndCh := 1, Err := none, Data := .absent }]) ∧
     (arg.Resource = .VRF → submits (GetRib send arg fd s).trace =
        [{ RequestType := REQ_VRF, Name := arg.Name, RouteFamily := arg.Rf,
           ResponseCh := 8, EndCh := 1, Err := none, Data := .absent }]) ∧
     (arg.Resource ∉ [Resource.LOCAL, .GLOBAL, .ADJ_IN, .ADJ_OUT, .VRF] →
        (GetRib send arg fd s).outcome =
          .returned (some (.unsupportedResourceType arg.Resource)) ∧
        (GetRib send arg fd s).trace = [])) ∧
    ((arg.Resource = .GLOBAL → submits (MonitorBestChanged send arg fd s).trace =
        [{ RequestType := REQ_MONITOR_GLOBAL_BEST_CHANGED, Name := "", RouteFamily := arg.Rf,
           ResponseCh := 8, EndCh := 1, Err := none, Data := .absent }]) ∧
     (arg.Resource ≠ .GLOBAL →
        (MonitorBestChanged send arg fd s).outcome =
          .returned (some (.unsupportedResourceType arg.Resource)) ∧
        (MonitorBestChanged send arg fd s).trace = [])) ∧
    ((marg.Resource = .GLOBAL → submits (GetMrt send marg fd s).trace =
        [{ RequestType := REQ_MRT_GLOBAL_RIB, Name := marg.NeighborAddress,
           RouteFamily := marg.Rf, ResponseCh := 8, EndCh := 1, Err := none,
           Data := .uint64 marg.Interval }]) ∧
     (marg.Resource = .LOCAL → submits (GetMrt send marg fd s).trace =
        [{ RequestType := REQ_MRT_LOCAL_RIB, Name := marg.NeighborAddress,
           RouteFamily := marg.Rf, ResponseCh := 8, EndCh := 1, Err := none,
           Data := .uint64 marg.Interval }]) ∧
     (marg.Resource ∉ [Resource.GLOBAL, .LOCAL] →
        (GetMrt send marg fd s).outcome =
          .returned (some (.unsupportedResourceType marg.Resource)) ∧
        (GetMrt send marg fd s).trace = [])) := by
  refine ⟨⟨?_, ?_, ?_, ?_, ?_, ?_⟩, ⟨?_, ?_⟩, ⟨?_, ?_, ?_⟩⟩
  · intro h; simp [GetRib, h, submits_submitAndStream, NewGrpcRequest]
  · intro h; simp [GetRib, h, submits_submitAndStream, NewGrpcRequest]
  · intro h; simp [GetRib, h, submits_submitAndStream, NewGrpcRequest]
  · intro h; simp [GetRib, h, submits_submitAndStream, NewGrpcRequest]
  · intro h; simp [GetRib, h, submits_submitAndStream, NewGrpcRequest]
  · intro h
    cases hr : arg.Resource <;> simp [hr] at h
    simp [GetRib, hr]
  · intro h; simp [MonitorBestChanged, h, submits_submitAndStream, NewGrpcRequest]
  · intro h
    cases hr : arg.Resource <;> simp_all [MonitorBestChanged]
  · intro h; simp [GetMrt, h, submits_submitAndStream, NewGrpcRequest]
  · intro h; simp [GetMrt, h, submits_submitAndStream, NewGrpcRequest]
  · intro h
    cases hr : marg.Resource <;> simp [hr] at h <;> simp [GetMrt, hr]

/-- C5 on the spec's scenario 2 (a table read with an unrecognised selector),
on a table read of the inbound adjacency and on a dump of the local table. -/
theorem selector_routing_witness :
    (GetRib (fun (n : Nat) _ => (n + 1, none)) ⟨.other 4, 2, "10.0.0.1"⟩ ⟨[], true⟩ 0).outcome =
        .returned (some (.unsupportedResourceType (.other 4))) ∧
    (GetRib (fun (n : Nat) _ => (n + 1, none)) ⟨.other 4, 2, "10.0.0.1"⟩ ⟨[], true⟩ 0).trace = [] ∧
    submits (GetRib (fun (n : Nat) _ => (n + 1, none)) ⟨.ADJ_IN, 2, "10.0.0.1"⟩ ⟨[], true⟩ 0).trace =
        [{ RequestType := 5, Name := "10.0.0.1", RouteFamily := 2,
           ResponseCh := 8, EndCh := 1, Err := none, Data := .absent }] ∧
    submits (GetMrt (fun (n : Nat) _ => (n + 1, none)) ⟨.LOCAL, 2, 30, "10.0.0.2"⟩
        ⟨[], true⟩ 0).trace =
        [{ RequestType := 20, Name := "10.0.0.2", RouteFamily := 2,
           ResponseCh := 8, EndCh := 1, Err := none, Data := .uint64 30 }] :=
  ⟨((selector_routing (fun (n : Nat) _ => (n + 1, none)) ⟨.other 4, 2, "10.0.0.1"⟩
      ⟨.GLOBAL, 0, 0, ""⟩ ⟨[], true⟩ 0).1.2.2.2.2.2 (by decide)).1,
   ((selector_routing (fun (n : Nat) _ => (n + 1, none)) ⟨.other 4, 2, "10.0.0.1"⟩
      ⟨.GLOBAL, 0, 0, ""⟩ ⟨[], true⟩ 0).1.2.2.2.2.2 (by decide)).2,
   (selector_routing (fun (n : Nat) _ => (n + 1, none)) ⟨.ADJ_IN, 2, "10.0.0.1"⟩
      ⟨.GLOBAL, 0, 0, ""⟩ ⟨[], true⟩ 0).1.2.2.1 rfl,
   (selector_routing (fun (n : Nat) _ => (n + 1, none)) ⟨.GLOBAL, 0, ""⟩
      ⟨.LOCAL, 2, 30, "10.0.0.2"⟩ ⟨[], true⟩ 0).2.2.2.1 rfl⟩

/-! ## Unary adapters: statements -/

/-- C7 fails as stated for `GetNeighbor`: a first response with a nil error
whose payload is not a peer (here: no payload) does not make it return success;
the call panics. -/
theorem GetNeighbor_panics_on_absent_payload :
    (GetNeighbor ⟨.GLOBAL, 0, "10.0.0.1"⟩
      ⟨[some { ResponseErr := none, Data := .absent }], true⟩).outcome = .panicked ∧
    ¬ ∃ v, (GetNeighbor ⟨.GLOBAL, 0, "10.0.0.1"⟩
      ⟨[some { ResponseErr := none, Data := .absent }], true⟩).outcome = .returned (v, none) := by
  constructor
  · decide
  · rintro ⟨v, hv⟩
    have h : (GetNeighbor ⟨.GLOBAL, 0, "10.0.0.1"⟩
      ⟨[some { ResponseErr := none, Data := .absent }], true⟩).outcome = .panicked := by decide
    rw [h] at hv
    cases hv

/-- C7, amended: each unary adapter (`GetNeighbor`, `neighbor`, `get`, `mod`),
run on a response channel whose first element is response `res`, submits
exactly one envelope and reads exactly `res`, leaving `rest` unread.  When
`res` carries error `e` the adapter returns `e` unchanged.  Otherwise
`neighbor` and `mod` return success, `get` returns the payload of `res`, and
`GetNeighbor` returns the payload of `res` when it is a peer and panics (after
that one read) when it is anything else. -/
theorem unary_adapters_read_one_response (arg : Arguments) (reqType typ : Nat) (d : Payload)
    (res : GrpcResponse) (rest : List (Option GrpcResponse)) (closed : Bool) :
    ((GetNeighbor arg ⟨some res :: rest, closed⟩).trace =
        [.submit (NewGrpcRequest REQ_NEIGHBOR arg.Name 0 .absent), .read (some res)] ∧
      (∀ e, res.ResponseErr = some e →
        (GetNeighbor arg ⟨some res :: rest, closed⟩).outcome = .returned (none, some e)) ∧
      (∀ v, res.ResponseErr = none → res.Data = .peer v →
        (GetNeighbor arg ⟨some res :: rest, closed⟩).outcome = .returned (some v, none)) ∧
      (res.ResponseErr = none → (∀ v, res.Data ≠ .peer v) →
        (GetNeighbor arg ⟨some res :: rest, closed⟩).outcome = .panicked)) ∧
    ((neighbor reqType arg ⟨some res :: rest, closed⟩).trace =
        [.submit (NewGrpcRequest reqType arg.Name arg.Rf .absent), .read (some res)] ∧
      (∀ e, res.ResponseErr = some e →
        (neighbor reqType arg ⟨some res :: rest, closed⟩).outcome = .returned (none, some e)) ∧
      (res.ResponseErr = none →
        (neighbor reqType arg ⟨some res :: rest, closed⟩).outcome =
          .returned (some emptyApiError, none))) ∧
    ((get typ d ⟨some res :: rest, closed⟩).trace =
        [.submit (NewGrpcRequest typ "" 0 d), .read (some res)] ∧
      (∀ e, res.ResponseErr = some e →
        (get typ d ⟨some res :: rest, closed⟩).outcome = .returned (.absent, some e)) ∧
      (res.ResponseErr = none →
        (get typ d ⟨some res :: rest, closed⟩).outcome = .returned (res.Data, none))) ∧
    ((mod typ d ⟨some res :: rest, closed⟩).trace =
        [.submit (NewGrpcRequest typ "" 0 d), .read (some res)] ∧
      (∀ e, res.ResponseErr = some e →
        (mod typ d ⟨some res :: rest, closed⟩).outcome =
          .returned (some emptyApiError, some e)) ∧
      (res.ResponseErr = none →
        (mod typ d ⟨some res :: rest, closed⟩).outcome =
          .returned (some emptyApiError, none))) := by
  refine ⟨⟨?_, ?_, ?_, ?_⟩, ⟨?_, ?_, ?_⟩, ⟨?_, ?_, ?_⟩, ⟨?_, ?_, ?_⟩⟩
  · cases hr : res.ResponseErr with
    | some e => simp [GetNeighbor, recvOne, GrpcResponse.Err, hr]
    | none =>
      cases hd : assertPeer res.Data <;>
        simp [GetNeighbor, recvOne, GrpcResponse.Err, hr, hd]
  · intro e he; simp [GetNeighbor, recvOne, GrpcResponse.Err, he]
  · intro v he hd; simp [GetNeighbor, recvOne, GrpcResponse.Err, he, hd, assertPeer]
  · intro he hd
    have hn : assertPeer res.Data = none := by
      cases hp : res.Data <;> simp [assertPeer]
      exact hd _ hp
    simp [GetNeighbor, recvOne, GrpcResponse.Err, he, hn]
  · cases hr : res.ResponseErr <;> simp [neighbor, recvOne, GrpcResponse.Err, hr]
  · intro e he; simp [neighbor, recvOne, GrpcResponse.Err, he]
  · intro he; simp [neighbor, recvOne, GrpcResponse.Err, he]
  · cases hr : res.ResponseErr <;> simp [get, recvOne, GrpcResponse.Err, hr]
  · intro e he; simp [get, recvOne, GrpcResponse.Err, he]
  · intro he; simp [get, recvOne, GrpcResponse.Err, he]
  · cases hr : res.ResponseErr <;> simp [mod, recvOne, GrpcResponse.Err, hr]
  · intro e he; simp [mod, recvOne, GrpcResponse.Err, he]
  · intro he; simp [mod, recvOne, GrpcResponse.Err, he]

/-- C7, amended, on the spec's scenario 1: a read of neighbor "10.0.0.1" that
the actor answers with one peer, followed by a response that stays unread. -/
theorem unary_adapters_read_one_response_witness :
    (GetNeighbor ⟨.GLOBAL, 0, "10.0.0.1"⟩ ⟨some (peerEvent 4) :: [some (peerEvent 5)], false⟩).trace =
        [.submit (NewGrpcRequest REQ_NEIGHBOR "10.0.0.1" 0 .absent), .read (some (peerEvent 4))] ∧
    (GetNeighbor ⟨.GLOBAL, 0, "10.0.0.1"⟩
        ⟨some (peerEvent 4) :: [some (peerEvent 5)], false⟩).outcome =
      .returned (some 4, none) :=
  ⟨(unary_adapters_read_one_response ⟨.GLOBAL, 0, "10.0.0.1"⟩ 0 0 .absent (peerEvent 4)
      [some (peerEvent 5)] false).1.1,
   (unary_adapters_read_one_response ⟨.GLOBAL, 0, "10.0.0.1"⟩ 0 0 .absent (peerEvent 4)
      [some (peerEvent 5)] false).1.2.2.1 4 rfl rfl⟩

/-- The outcome of a typed read on a first response without error is decided
by the type assertion on its payload. -/
theorem typedGet_outcome (typ : Nat) (arg : Payload) (assert : Payload → Option Nat)
    (res : GrpcResponse) (rest : List (Option GrpcResponse)) (closed : Bool)
    (hres : res.ResponseErr = none) :
    (typedGet typ arg assert ⟨some res :: rest, closed⟩).outcome =
      match assert res.Data with
      | some v => .returned (some v, none)
      | none => .panicked := by
  cases ha : assert res.Data <;>
    simp [typedGet, get, recvOne, GrpcResponse.Err, hres, ha]

/-- C9: each typed unary read, on a first response `res` with a nil error,
returns the payload of `res` with a nil error when the payload has the shape
the call expects, and panics when the payload has any other shape, an absent
payload included. -/
theorem typed_reads_assert_payload_shape (arg : Arguments) (a : Nat)
    (res : GrpcResponse) (rest : List (Option GrpcResponse)) (closed : Bool)
    (hres : res.ResponseErr = none) :
    ((∀ v, res.Data = .peer v →
        (GetNeighbor arg ⟨some res :: rest, closed⟩).outcome = .returned (some v, none)) ∧
      ((∀ v, res.Data ≠ .peer v) →
        (GetNeighbor arg ⟨some res :: rest, closed⟩).outcome = .panicked)) ∧
    ((∀ v, res.Data = .definedSet v →
        (GetDefinedSet a ⟨some res :: rest, closed⟩).outcome = .returned (some v, none)) ∧
      ((∀ v, res.Data ≠ .definedSet v) →
        (GetDefinedSet a ⟨some res :: rest, closed⟩).outcome = .panicked)) ∧
    ((∀ v, res.Data = .statement v →
        (GetStatement a ⟨some res :: rest, closed⟩).outcome = .returned (some v, none)) ∧
      ((∀ v, res.Data ≠ .statement v) →
        (GetStatement a ⟨some res :: rest, closed⟩).outcome = .panicked)) ∧
    ((∀ v, res.Data = .policy v →
        (GetPolicy a ⟨some res :: rest, closed⟩).outcome = .returned (some v, none)) ∧
      ((∀ v, res.Data ≠ .policy v) →
        (GetPolicy a ⟨some res :: rest, closed⟩).outcome = .panicked)) ∧
    ((∀ v, res.Data = .policyAssignment v →
        (GetPolicyAssignment a ⟨some res :: rest, closed⟩).outcome =
          .returned (some v, none)) ∧
      ((∀ v, res.Data ≠ .policyAssignment v) →
        (GetPolicyAssignment a ⟨some res :: rest, closed⟩).outcome = .panicked)) ∧
    ((∀ v, res.Data = .global v →
        (GetGlobalConfig arg ⟨some res :: rest, closed⟩).outcome = .returned (some v, none)) ∧
      ((∀ v, res.Data ≠ .global v) →
        (GetGlobalConfig arg ⟨some res :: rest, closed⟩).outcome = .panicked)) := by
  refine ⟨⟨?_, ?_⟩, ⟨?_, ?_⟩, ⟨?_, ?_⟩, ⟨?_, ?_⟩, ⟨?_, ?_⟩, ⟨?_, ?_⟩⟩
  · intro v hd; simp [GetNeighbor, recvOne, GrpcResponse.Err, hres, hd, assertPeer]
  · intro hd
    have hn : assertPeer res.Data = none := by
      cases hp : res.Data <;> simp [assertPeer]
      exact hd _ hp
    simp [GetNeighbor, recvOne, GrpcResponse.Err, hres, hn]
  · intro v hd
    simp [GetDefinedSet, typedGet_outcome _ _ _ res rest closed hres, hd, assertDefinedSet]
  · intro hd
    have hn : assertDefinedSet res.Data = none := by
      cases hp : res.Data <;> simp [assertDefinedSet]
      exact hd _ hp
    simp [GetDefinedSet, typedGet_outcome _ _ _ res rest closed hres, hn]
  · intro v hd
    simp [GetStatement, typedGet_outcome _ _ _ res rest closed hres, hd, assertStatement]
  · intro hd
    have hn : assertStatement res.Data = none := by
      cases hp : res.Data <;> simp [assertStatement]
      exact hd _ hp
    simp [GetStatement, typedGet_outcome _ _ _ res rest closed hres, hn]
  · intro v hd
    simp [GetPolicy, typedGet_outcome _ _ _ res rest closed hres, hd, assertPolicy]
  · intro hd
    have hn : assertPolicy res.Data = none := by
      cases hp : res.Data <;> simp [assertPolicy]
      exact hd _ hp
    simp [GetPolicy, typedGet_outcome _ _ _ res rest closed hres, hn]
  · intro v hd
    simp [GetPolicyAssignment, typedGet_outcome _ _ _ res rest closed hres, hd,
      assertPolicyAssignment]
  · intro hd
    have hn : assertPolicyAssignment res.Data = none := by
      cases hp : res.Data <;> simp [assertPolicyAssignment]
      exact hd _ hp
    simp [GetPolicyAssignment, typedGet_outcome _ _ _ res rest closed hres, hn]
  · intro v hd
    simp [GetGlobalConfig, typedGet_outcome _ _ _ res rest closed hres, hd, assertGlobal]
  · intro hd
    have hn : assertGlobal res.Data = none := by
      cases hp : res.Data <;> simp [assertGlobal]
      exact hd _ hp
    simp [GetGlobalConfig, typedGet_outcome _ _ _ res rest closed hres, hn]

/-- C9 on a policy read that the actor answers with a statement. -/
theorem typed_reads_assert_payload_shape_witness :
    (⟨none, .statement 2⟩ : GrpcResponse).ResponseErr = none ∧
    (GetPolicy 1 ⟨some ⟨none, .statement 2⟩ :: [], true⟩).outcome = .panicked ∧
    (GetStatement 1 ⟨some ⟨none, .statement 2⟩ :: [], true⟩).outcome =
      .returned (some 2, none) :=
  ⟨rfl,
   (typed_reads_assert_payload_shape ⟨.GLOBAL, 0, ""⟩ 1 ⟨none, .statement 2⟩ [] true
      rfl).2.2.2.1.2 (by intro v h; cases h),
   (typed_reads_assert_payload_shape ⟨.GLOBAL, 0, ""⟩ 1 ⟨none, .statement 2⟩ [] true
      rfl).2.2.1.1 2 rfl⟩

/-! ## Channel capacities: statements -/

/-- Every envelope `ModPath` submits comes from `NewGrpcRequest`. -/
theorem ModPath_submits_capacity (sendAndClose : ApiError → Option GoError)
    (recvd : List RecvResult) (feeds : List Feed) :
    ∀ req ∈ submits (ModPath sendAndClose recvd feeds).trace,
      req.ResponseCh = 8 ∧ req.EndCh = 1 := by
  induction recvd generalizing feeds with
  | nil => simp [ModPath, submits]
  | cons r rs ih =>
    intro req hreq
    simp only [ModPath] at hreq
    split at hreq
    · simp [submits] at hreq
    · simp [submits] at hreq
    · split at hreq
      · simp [submits] at hreq
      · split at hreq
        · simp [submits] at hreq
        · split at hreq
          · simp [submits] at hreq; subst hreq; exact ⟨rfl, rfl⟩
          · simp [submits] at hreq; subst hreq; exact ⟨rfl, rfl⟩
          · split at hreq
            · simp [submits] at hreq; subst hreq; exact ⟨rfl, rfl⟩
            · simp only [submits, List.mem_cons] at hreq
              rcases hreq with hreq | hreq
              · subst hreq; exact ⟨rfl, rfl⟩
              · exact ih _ req hreq

/-- C10 fails as stated: the envelope `GetNeighbor` submits has a response
channel of capacity 8, not 1. -/
theorem GetNeighbor_response_channel_capacity :
    submits (GetNeighbor ⟨.GLOBAL, 0, "10.0.0.1"⟩ ⟨[some (peerEvent 1)], false⟩).trace =
        [NewGrpcRequest REQ_NEIGHBOR "10.0.0.1" 0 .absent] ∧
    (NewGrpcRequest REQ_NEIGHBOR "10.0.0.1" 0 .absent).ResponseCh = 8 ∧
    (NewGrpcRequest REQ_NEIGHBOR "10.0.0.1" 0 .absent).ResponseCh ≠ 1 := by
  decide

/-- C10, amended: every envelope built by a unary adapter (`GetNeighbor`,
`neighbor`, `get`, `mod`, and each per-item envelope of `ModPath`) has a
response channel of capacity exactly 8, the capacity `NewGrpcRequest` gives to
every envelope, and an end-signal channel of capacity 1.  Each of the four
unary adapters submits one such envelope whatever the actor delivers. -/
theorem unary_envelopes_have_capacity_eight (sendAndClose : ApiError → Option GoError)
    (arg : Arguments) (reqType typ : Nat) (d : Payload) (fd : Feed)
    (recvd : List RecvResult) (feeds : List Feed) :
    (∃ req, submits (GetNeighbor arg fd).trace = [req] ∧
      req.ResponseCh = 8 ∧ req.EndCh = 1) ∧
    (∃ req, submits (neighbor reqType arg fd).trace = [req] ∧
      req.ResponseCh = 8 ∧ req.EndCh = 1) ∧
    (∃ req, submits (get typ d fd).trace = [req] ∧ req.ResponseCh = 8 ∧ req.EndCh = 1) ∧
    (∃ req, submits (mod typ d fd).trace = [req] ∧ req.ResponseCh = 8 ∧ req.EndCh = 1) ∧
    (∀ req ∈ submits (ModPath sendAndClose recvd feeds).trace,
      req.ResponseCh = 8 ∧ req.EndCh = 1) := by
  refine ⟨⟨NewGrpcRequest REQ_NEIGHBOR arg.Name 0 .absent, ?_, rfl, rfl⟩,
    ⟨NewGrpcRequest reqType arg.Name arg.Rf .absent, ?_, rfl, rfl⟩,
    ⟨NewGrpcRequest typ "" 0 d, ?_, rfl, rfl⟩,
    ⟨NewGrpcRequest typ "" 0 d, ?_, rfl, rfl⟩,
    ModPath_submits_capacity sendAndClose recvd feeds⟩
  · simp only [GetNeighbor]
    split
    · simp [submits]
    · simp [submits]
    · split
      · simp [submits]
      · split <;> simp [submits]
  · simp only [neighbor]
    split
    · simp [submits]
    · simp [submits]
    · split <;> simp [submits]
  · simp only [get]
    split
    · simp [submits]
    · simp [submits]
    · split <;> simp [submits]
  · simp only [mod]
    split
    · simp [submits]
    · simp [submits]
    · split <;> simp [submits]

/-- C10, amended, on a stream of two acknowledged path adds: both per-item
envelopes have a response channel of capacity 8. -/
theorem unary_envelopes_have_capacity_eight_witness :
    (submits (ModPath (fun _ => none) [(globalAdd "a").recv, (globalAdd "b").recv]
        [(globalAdd "a").feed, (globalAdd "b").feed]).trace).length = 2 ∧
    ∀ req ∈ submits (ModPath (fun _ => none) [(globalAdd "a").recv, (globalAdd "b").recv]
        [(globalAdd "a").feed, (globalAdd "b").feed]).trace,
      req.ResponseCh = 8 ∧ req.EndCh = 1 :=
  ⟨by decide,
   (unary_envelopes_have_capacity_eight (fun _ => none) ⟨.GLOBAL, 0, ""⟩ 0 0 .absent ⟨[], false⟩
      [(globalAdd "a").recv, (globalAdd "b").recv]
      [(globalAdd "a").feed, (globalAdd "b").feed]).2.2.2.2⟩

end GrpcServer
